import Mathlib

/-!
# Hardware control backend (`src/control/control_hw.c`)

A shallow embedding of the hardware-backed control transport of alsa-lib and
the properties proved about it.

Modelling conventions

* C integers are `Int` (signed) or `Nat` (unsigned); where the code narrows a
  value to `unsigned int` the model reduces it modulo `2 ^ 32`.
* Memory reached through a pointer is a byte image `Mem`, a map from offsets to
  bytes.  Offsets past the declared size of an area stand for whatever memory
  follows it.
* The backend state `*hw` a handle refers to is passed into every operation and
  handed back by it, next to the world: what an operation leaves in it is part of
  its result.
* Everything outside the file (the kernel behind `ioctl`, `fcntl`, `read`,
  `close`, the allocator, the helpers of other compilation units) is a field
  of `Sys`, a deterministic stand-in with its own state.  The functions thread
  a `World`: the state of that stand-in together with the trace of the calls
  made so far.
* A failing system call returns a negative value and leaves a positive `errno`
  (POSIX); the `errno` a call would leave is part of its `Reply`.
-/

namespace ControlHw

/-! ## Constants of the headers -/

/-- Modelled from the spec: `SNDRV_PROTOCOL_VERSION(major, minor, subminor)` of the
kernel header, not under src; the three components packed into one scalar. -/
def SNDRV_PROTOCOL_VERSION (major minor subminor : Nat) : Nat :=
  major * 2 ^ 16 + minor * 2 ^ 8 + subminor

/-- Macro `SNDRV_CTL_VERSION_MAX`, line 49. -/
def SNDRV_CTL_VERSION_MAX : Nat := SNDRV_PROTOCOL_VERSION 2 0 4

/-- Linux `errno.h`. -/
def ENXIO : Int := 6
/-- Linux `errno.h`. -/
def ENOMEM : Int := 12
/-- Linux `errno.h`. -/
def EFAULT : Int := 14
/-- Linux `errno.h`. -/
def EINVAL : Int := 22

/-- Index of the length word of a TLV block: `SNDRV_CTL_TLVO_LEN` of the kernel
header, not under src. -/
def SNDRV_CTL_TLVO_LEN : Nat := 1

/-- Value of `sizeof(unsigned int)`. -/
def sizeof_unsigned_int : Nat := 4

/-- Value of `sizeof(struct snd_ctl_tlv)`: the two header words `numid` and `length`;
the flexible array `tlv` adds nothing. -/
def sizeof_snd_ctl_tlv : Nat := 8

/-- Value of `sizeof(snd_ctl_hw_t)`: three `int`-sized fields. -/
def sizeof_snd_ctl_hw_t : Nat := 12

/-- Value of `SNDRV_CTL_ELEM_TYPE_ENUMERATED` in `snd_ctl_elem_type_t` (kernel header,
not under src). -/
def SNDRV_CTL_ELEM_TYPE_ENUMERATED : Int := 3

/-- Modelled from the spec: `SNDRV_PROTOCOL_MAJOR(version)` of the kernel header, not
under src; the major component of a packed version, `(version >> 16) & 0xffff`. -/
def SNDRV_PROTOCOL_MAJOR (version : Int) : Int := (version / 2 ^ 16) % 2 ^ 16

/-- Modelled from the spec: `SNDRV_PROTOCOL_INCOMPATIBLE(kversion, uversion)` of the
kernel header, not under src.  The spec: "major must match an upper bound, overall
value must not exceed it". -/
def SNDRV_PROTOCOL_INCOMPATIBLE (kversion uversion : Int) : Bool :=
  decide (SNDRV_PROTOCOL_MAJOR kversion ≠ SNDRV_PROTOCOL_MAJOR uversion) ||
    decide (uversion < kversion)

/-- Modelled from the spec: `CHECK_SANITY(x)` of `local.h`, not under src; the spec has
both checks guarded by it performed (an out-of-range index and an unexpected read size
are errors), so the macro yields its argument. -/
def CHECK_SANITY (x : Bool) : Bool := x

/-- Bound on card indices: `SND_MAX_CARDS` of `local.h`, a header that is not under
src, with its alsa-lib value. -/
def SND_MAX_CARDS : Int := 32

/-- Error code of `error.h`, a header that is not under src: `SND_ERROR_BEGIN + 0`. -/
def SND_ERROR_INCOMPATIBLE_VERSION : Int := 500000

/-- Open-mode bit of `control.h`. -/
def SND_CTL_NONBLOCK : Int := 1
/-- Open-mode bit of `control.h`. -/
def SND_CTL_ASYNC : Int := 2
/-- Open-mode bit of `control.h`. -/
def SND_CTL_READONLY : Int := 4

/-- File access mode of Linux `fcntl.h`. -/
def O_RDONLY : Int := 0
/-- File access mode of Linux `fcntl.h`. -/
def O_RDWR : Int := 2
/-- File status flag of Linux `fcntl.h`: bit 11 (octal 04000). -/
def O_NONBLOCK : Int := 2048
/-- File status flag of Linux `fcntl.h`: bit 13 (octal 020000). -/
def O_ASYNC : Int := 8192

/-! ## Memory -/

/-- Byte image of a memory area: the byte stored at each offset. -/
abbrev Mem := Nat → Nat

/-- Byte copy `memcpy(dst, src, n)`: the image of `dst` afterwards. -/
def memcpy (dst src : Mem) (n : Nat) : Mem :=
  fun i => if i < n then src i else dst i

/-- The `unsigned int` stored at word index `idx` of an image, in the byte order of
the host. -/
def load_u32 (big_endian : Bool) (m : Mem) (idx : Nat) : Nat :=
  let b : Nat → Nat := fun k => m (4 * idx + k) % 256
  if big_endian then b 0 * 2 ^ 24 + b 1 * 2 ^ 16 + b 2 * 2 ^ 8 + b 3
  else b 0 + b 1 * 2 ^ 8 + b 2 * 2 ^ 16 + b 3 * 2 ^ 24

/-! ## Data model -/

/-- Backend state `snd_ctl_hw_t`, lines 51-55. -/
structure snd_ctl_hw_t where
  card : Int
  fd : Int
  protocol : Nat

/-- TLV transmission block `struct snd_ctl_tlv`: header and payload image. -/
structure snd_ctl_tlv where
  numid : Nat
  length : Nat
  tlv : Mem

/-- Element description `snd_ctl_elem_info_t`: the kind and the image of the
remaining fields. -/
structure snd_ctl_elem_info_t where
  type : Int
  rest : Mem

/-- Protocol operation codes `SNDRV_CTL_IOCTL_*`. -/
inductive Request
  | PVERSION | CARD_INFO | ELEM_LIST | ELEM_INFO | ELEM_ADD | ELEM_REPLACE
  | ELEM_REMOVE | ELEM_READ | ELEM_WRITE | ELEM_LOCK | ELEM_UNLOCK
  | TLV_READ | TLV_WRITE | TLV_COMMAND | SUBSCRIBE_EVENTS
  | HWDEP_NEXT_DEVICE | HWDEP_INFO | PCM_NEXT_DEVICE | PCM_INFO
  | PCM_PREFER_SUBDEVICE | RAWMIDI_NEXT_DEVICE | RAWMIDI_INFO
  | RAWMIDI_PREFER_SUBDEVICE | POWER | POWER_STATE
  deriving DecidableEq, Repr

/-- Shape of the object the third argument of an `ioctl` points to. -/
inductive Kind
  | tlv | elem_info | int | uint | blob
  deriving DecidableEq, Repr

/-- Contents of an `ioctl` argument of each shape. -/
def Kind.T : Kind → Type
  | Kind.tlv => snd_ctl_tlv
  | Kind.elem_info => snd_ctl_elem_info_t
  | Kind.int => Int
  | Kind.uint => Nat
  | Kind.blob => Mem

/-- Commands passed to `fcntl`. -/
inductive Fcntl
  | F_GETFL | F_SETFL | F_SETSIG | F_SETOWN
  deriving DecidableEq, Repr

/-- Generic control handle `snd_ctl_t`, as far as this file touches it. -/
structure snd_ctl_t where
  name : String
  mode : Int
  hw_ops : Bool
  private_data : Option snd_ctl_hw_t
  poll_fd : Int

/-- One call that leaves the compilation unit. -/
inductive Event
  | open_device (filename : String) (fmode : Int)
  | card_load (card : Int)
  | ioctl (fd : Int) (request : Request) (k : Kind) (arg : k.T)
  | fcntl (fd : Int) (cmd : Fcntl) (arg : Int)
  | read (fd : Int) (count : Nat)
  | close (fd : Int)
  | malloc (size : Nat)
  | calloc (nmemb size : Nat)
  | free
  | ctl_new (name : String) (mode : Int)
  | eld_fixup

/-- Result of a system call: the value returned, the `errno` it leaves when that
value is negative, and the contents of the object its pointer argument refers to. -/
structure Reply (α : Type) where
  val : Int
  errno : ℕ+
  out : α

/-- Result of `read`: the value returned, the value of `errno` afterwards (untouched
by a call that does not fail) and the bytes of the destination. -/
structure ReadReply where
  res : Int
  errno : Nat
  event : Mem

/-- Everything outside the compilation unit, as a deterministic machine over a
state `σ`. -/
structure Sys (σ : Type) where
  big_endian : Bool
  uninit_int : Int
  sizeof_event : ℕ+
  ioctl : Int → Request → (k : Kind) → k.T → σ → Reply k.T × σ
  fcntl : Int → Fcntl → Int → σ → Reply Unit × σ
  read : Int → Mem → Nat → σ → ReadReply × σ
  close : Int → σ → Reply Unit × σ
  malloc : Nat → σ → Option Mem × σ
  calloc : Nat → Nat → σ → Bool × σ
  open_device : String → Int → σ → Reply Unit × σ
  card_load : Int → σ → σ
  ctl_new : String → Int → σ → Reply snd_ctl_t × σ
  eld_fixup_check : Mem → Bool
  eld_fixup : Mem → σ → (Int × Mem) × σ

/-- State of the outside machine and the calls made so far, oldest first. -/
structure World (σ : Type) where
  kernel : σ
  trace : List Event

variable {σ : Type}

/-- Call `ioctl(fd, request, arg)` and log it. -/
def sys_ioctl (S : Sys σ) (fd : Int) (request : Request) (k : Kind) (arg : k.T)
    (w : World σ) : Reply k.T × World σ :=
  ((S.ioctl fd request k arg w.kernel).1,
    ⟨(S.ioctl fd request k arg w.kernel).2, w.trace ++ [Event.ioctl fd request k arg]⟩)

/-- Call `malloc(size)` and log it; `none` is the null pointer, `some blk` a block
whose payload part holds the indeterminate bytes `blk`. -/
def sys_malloc (S : Sys σ) (size : Nat) (w : World σ) : Option Mem × World σ :=
  ((S.malloc size w.kernel).1, ⟨(S.malloc size w.kernel).2, w.trace ++ [Event.malloc size]⟩)

/-- Call `free` and log it. -/
def sys_free (w : World σ) : World σ :=
  ⟨w.kernel, w.trace ++ [Event.free]⟩

/-- The value of `-errno` after a failed call. -/
def neg_errno (e : ℕ+) : Int := -((e : Nat) : Int)


/-! ## Calls that leave the file, logged -/

/-- Call `fcntl(fd, cmd, arg)` and log it. -/
def sys_fcntl (S : Sys σ) (fd : Int) (cmd : Fcntl) (arg : Int) (w : World σ) :
    Reply Unit × World σ :=
  ((S.fcntl fd cmd arg w.kernel).1,
    ⟨(S.fcntl fd cmd arg w.kernel).2, w.trace ++ [Event.fcntl fd cmd arg]⟩)

/-- Call `read(fd, buf, count)` and log it. -/
def sys_read (S : Sys σ) (fd : Int) (buf : Mem) (count : Nat) (w : World σ) :
    ReadReply × World σ :=
  ((S.read fd buf count w.kernel).1,
    ⟨(S.read fd buf count w.kernel).2, w.trace ++ [Event.read fd count]⟩)

/-- Call `close(fd)` and log it. -/
def sys_close (S : Sys σ) (fd : Int) (w : World σ) : Reply Unit × World σ :=
  ((S.close fd w.kernel).1, ⟨(S.close fd w.kernel).2, w.trace ++ [Event.close fd]⟩)

/-- Call `calloc(nmemb, size)` and log it; `false` is the null pointer. -/
def sys_calloc (S : Sys σ) (nmemb size : Nat) (w : World σ) : Bool × World σ :=
  ((S.calloc nmemb size w.kernel).1,
    ⟨(S.calloc nmemb size w.kernel).2, w.trace ++ [Event.calloc nmemb size]⟩)

/-- Call `snd_open_device(filename, fmode)` and log it. -/
def sys_open_device (S : Sys σ) (filename : String) (fmode : Int) (w : World σ) :
    Reply Unit × World σ :=
  ((S.open_device filename fmode w.kernel).1,
    ⟨(S.open_device filename fmode w.kernel).2, w.trace ++ [Event.open_device filename fmode]⟩)

/-- Call `snd_card_load(card)` and log it. -/
def sys_card_load (S : Sys σ) (card : Int) (w : World σ) : World σ :=
  ⟨S.card_load card w.kernel, w.trace ++ [Event.card_load card]⟩

/-- Call `snd_ctl_new(&ctl, SND_CTL_TYPE_HW, name, mode)` and log it. -/
def sys_ctl_new (S : Sys σ) (name : String) (mode : Int) (w : World σ) :
    Reply snd_ctl_t × World σ :=
  ((S.ctl_new name mode w.kernel).1,
    ⟨(S.ctl_new name mode w.kernel).2, w.trace ++ [Event.ctl_new name mode]⟩)

/-- Call `__snd_pcm_info_eld_fixup(info)` and log it. -/
def sys_eld_fixup (S : Sys σ) (info : Mem) (w : World σ) : (Int × Mem) × World σ :=
  ((S.eld_fixup info w.kernel).1, ⟨(S.eld_fixup info w.kernel).2, w.trace ++ [Event.eld_fixup]⟩)

/-! ## Operations of the dispatch table -/

/-- The body shared by the plain operations:
`if (ioctl(hw->fd, request, arg) < 0) return -errno; return 0;`.  Returns the C return
value and the contents of the argument afterwards, then the backend state `*hw` and the
world afterwards. -/
def ioctl_or_errno (S : Sys σ) (hw : snd_ctl_hw_t) (request : Request) (k : Kind)
    (arg : k.T) (w : World σ) : (Int × k.T) × (snd_ctl_hw_t × World σ) :=
  match sys_ioctl S hw.fd request k arg w with
  | (r, w1) => if r.val < 0 then ((neg_errno r.errno, r.out), (hw, w1)) else ((0, r.out), (hw, w1))

/-- Function `snd_ctl_hw_close`, lines 58-65.  The backend state is freed: only the
return value and the world are left. -/
def snd_ctl_hw_close (S : Sys σ) (hw : snd_ctl_hw_t) (w : World σ) : Int × World σ :=
  match sys_close S hw.fd w with
  | (r, w1) => (if r.val < 0 then neg_errno r.errno else 0, sys_free w1)

/-- Function `snd_ctl_hw_nonblock`, lines 67-85. -/
def snd_ctl_hw_nonblock (S : Sys σ) (hw : snd_ctl_hw_t) (nonblock : Int) (w : World σ) :
    Int × (snd_ctl_hw_t × World σ) :=
  match sys_fcntl S hw.fd Fcntl.F_GETFL 0 w with
  | (g, w1) =>
    if g.val < 0 then (neg_errno g.errno, (hw, w1))
    else
      let flags : Int :=
        if nonblock ≠ 0 then Int.lor g.val O_NONBLOCK
        else Int.land g.val (Int.lnot O_NONBLOCK)
      match sys_fcntl S hw.fd Fcntl.F_SETFL flags w1 with
      | (r, w2) => if r.val < 0 then (neg_errno r.errno, (hw, w2)) else (0, (hw, w2))

/-- Function `snd_ctl_hw_async`, lines 87-116. -/
def snd_ctl_hw_async (S : Sys σ) (hw : snd_ctl_hw_t) (sig pid : Int) (w : World σ) :
    Int × (snd_ctl_hw_t × World σ) :=
  match sys_fcntl S hw.fd Fcntl.F_GETFL 0 w with
  | (g, w1) =>
    if g.val < 0 then (neg_errno g.errno, (hw, w1))
    else
      let flags : Int :=
        if sig ≥ 0 then Int.lor g.val O_ASYNC
        else Int.land g.val (Int.lnot O_ASYNC)
      match sys_fcntl S hw.fd Fcntl.F_SETFL flags w1 with
      | (r, w2) =>
        if r.val < 0 then (neg_errno r.errno, (hw, w2))
        else if sig < 0 then (0, (hw, w2))
        else
          match sys_fcntl S hw.fd Fcntl.F_SETSIG sig w2 with
          | (r3, w3) =>
            if r3.val < 0 then (neg_errno r3.errno, (hw, w3))
            else
              match sys_fcntl S hw.fd Fcntl.F_SETOWN pid w3 with
              | (r4, w4) => if r4.val < 0 then (neg_errno r4.errno, (hw, w4)) else (0, (hw, w4))

/-- Function `snd_ctl_hw_subscribe_events`, lines 118-126. -/
def snd_ctl_hw_subscribe_events (S : Sys σ) (hw : snd_ctl_hw_t) (subscribe : Int)
    (w : World σ) : (Int × Int) × (snd_ctl_hw_t × World σ) :=
  ioctl_or_errno S hw Request.SUBSCRIBE_EVENTS Kind.int subscribe w

/-- Function `snd_ctl_hw_card_info`, lines 128-136. -/
def snd_ctl_hw_card_info (S : Sys σ) (hw : snd_ctl_hw_t) (info : Mem) (w : World σ) :
    (Int × Mem) × (snd_ctl_hw_t × World σ) :=
  ioctl_or_errno S hw Request.CARD_INFO Kind.blob info w

/-- Function `snd_ctl_hw_elem_list`, lines 138-144. -/
def snd_ctl_hw_elem_list (S : Sys σ) (hw : snd_ctl_hw_t) (list : Mem) (w : World σ) :
    (Int × Mem) × (snd_ctl_hw_t × World σ) :=
  ioctl_or_errno S hw Request.ELEM_LIST Kind.blob list w

/-- Function `snd_ctl_hw_elem_info`, lines 146-152. -/
def snd_ctl_hw_elem_info (S : Sys σ) (hw : snd_ctl_hw_t) (info : snd_ctl_elem_info_t)
    (w : World σ) : (Int × snd_ctl_elem_info_t) × (snd_ctl_hw_t × World σ) :=
  ioctl_or_errno S hw Request.ELEM_INFO Kind.elem_info info w

/-- Function `snd_ctl_hw_elem_add`, lines 154-165.  Returns the C return value and the
contents of `info` afterwards. -/
def snd_ctl_hw_elem_add (S : Sys σ) (hw : snd_ctl_hw_t) (info : snd_ctl_elem_info_t)
    (w : World σ) : (Int × snd_ctl_elem_info_t) × (snd_ctl_hw_t × World σ) :=
  if info.type = SNDRV_CTL_ELEM_TYPE_ENUMERATED ∧
      hw.protocol < SNDRV_PROTOCOL_VERSION 2 0 7 then ((- ENXIO, info), (hw, w))
  else
    match sys_ioctl S hw.fd Request.ELEM_ADD Kind.elem_info info w with
    | (r, w1) => if r.val < 0 then ((neg_errno r.errno, r.out), (hw, w1)) else ((0, r.out), (hw, w1))

/-- Function `snd_ctl_hw_elem_replace`, lines 167-178.  Returns the C return value and
the contents of `info` afterwards. -/
def snd_ctl_hw_elem_replace (S : Sys σ) (hw : snd_ctl_hw_t) (info : snd_ctl_elem_info_t)
    (w : World σ) : (Int × snd_ctl_elem_info_t) × (snd_ctl_hw_t × World σ) :=
  if info.type = SNDRV_CTL_ELEM_TYPE_ENUMERATED ∧
      hw.protocol < SNDRV_PROTOCOL_VERSION 2 0 7 then ((- ENXIO, info), (hw, w))
  else
    match sys_ioctl S hw.fd Request.ELEM_REPLACE Kind.elem_info info w with
    | (r, w1) => if r.val < 0 then ((neg_errno r.errno, r.out), (hw, w1)) else ((0, r.out), (hw, w1))

/-- Function `snd_ctl_hw_elem_remove`, lines 180-186. -/
def snd_ctl_hw_elem_remove (S : Sys σ) (hw : snd_ctl_hw_t) (id : Mem) (w : World σ) :
    (Int × Mem) × (snd_ctl_hw_t × World σ) :=
  ioctl_or_errno S hw Request.ELEM_REMOVE Kind.blob id w

/-- Function `snd_ctl_hw_elem_read`, lines 188-194. -/
def snd_ctl_hw_elem_read (S : Sys σ) (hw : snd_ctl_hw_t) (control : Mem) (w : World σ) :
    (Int × Mem) × (snd_ctl_hw_t × World σ) :=
  ioctl_or_errno S hw Request.ELEM_READ Kind.blob control w

/-- Function `snd_ctl_hw_elem_write`, lines 196-202. -/
def snd_ctl_hw_elem_write (S : Sys σ) (hw : snd_ctl_hw_t) (control : Mem) (w : World σ) :
    (Int × Mem) × (snd_ctl_hw_t × World σ) :=
  ioctl_or_errno S hw Request.ELEM_WRITE Kind.blob control w

/-- Function `snd_ctl_hw_elem_lock`, lines 204-210. -/
def snd_ctl_hw_elem_lock (S : Sys σ) (hw : snd_ctl_hw_t) (id : Mem) (w : World σ) :
    (Int × Mem) × (snd_ctl_hw_t × World σ) :=
  ioctl_or_errno S hw Request.ELEM_LOCK Kind.blob id w

/-- Function `snd_ctl_hw_elem_unlock`, lines 212-218. -/
def snd_ctl_hw_elem_unlock (S : Sys σ) (hw : snd_ctl_hw_t) (id : Mem) (w : World σ) :
    (Int × Mem) × (snd_ctl_hw_t × World σ) :=
  ioctl_or_errno S hw Request.ELEM_UNLOCK Kind.blob id w

/-! ## TLV marshaller -/

/-- The `switch (op_flag)` of lines 232-237: the operation code, or `none` for the
`default` branch. -/
def tlv_inum (op_flag : Int) : Option Request :=
  if op_flag = -1 then some Request.TLV_COMMAND
  else if op_flag = 0 then some Request.TLV_READ
  else if op_flag = 1 then some Request.TLV_WRITE
  else none

/-- Function `snd_ctl_hw_elem_tlv`, lines 220-259.  Returns the C return value and the
image of the caller's buffer `tlv` afterwards, then the backend state and the world it
leaves. -/
def snd_ctl_hw_elem_tlv (S : Sys σ) (hw : snd_ctl_hw_t) (op_flag : Int) (numid : Nat)
    (tlv : Mem) (tlv_size : Nat) (w : World σ) : (Int × Mem) × (snd_ctl_hw_t × World σ) :=
  if hw.protocol < SNDRV_PROTOCOL_VERSION 2 0 4 then ((- ENXIO, tlv), (hw, w))
  else
    match tlv_inum op_flag with
    | none => ((-EINVAL, tlv), (hw, w))
    | some inum =>
      match sys_malloc S (sizeof_snd_ctl_tlv + tlv_size) w with
      | (none, w1) => ((-ENOMEM, tlv), (hw, w1))
      | (some blk, w1) =>
        let xtlv : snd_ctl_tlv :=
          { numid := numid, length := tlv_size, tlv := memcpy blk tlv tlv_size }
        match sys_ioctl S hw.fd inum Kind.tlv xtlv w1 with
        | (r, w2) =>
          if r.val < 0 then ((neg_errno r.errno, tlv), (hw, sys_free w2))
          else if op_flag = 0 then
            let size : Nat :=
              (load_u32 S.big_endian r.out.tlv SNDRV_CTL_TLVO_LEN + 2 * sizeof_unsigned_int)
                % 2 ^ 32
            if size > tlv_size then ((-EFAULT, tlv), (hw, sys_free w2))
            else ((0, memcpy tlv r.out.tlv size), (hw, sys_free w2))
          else ((0, tlv), (hw, sys_free w2))


/-- Function `snd_ctl_hw_hwdep_next_device`, lines 261-267. -/
def snd_ctl_hw_hwdep_next_device (S : Sys σ) (hw : snd_ctl_hw_t) (device : Int)
    (w : World σ) : (Int × Int) × (snd_ctl_hw_t × World σ) :=
  ioctl_or_errno S hw Request.HWDEP_NEXT_DEVICE Kind.int device w

/-- Function `snd_ctl_hw_hwdep_info`, lines 269-275. -/
def snd_ctl_hw_hwdep_info (S : Sys σ) (hw : snd_ctl_hw_t) (info : Mem) (w : World σ) :
    (Int × Mem) × (snd_ctl_hw_t × World σ) :=
  ioctl_or_errno S hw Request.HWDEP_INFO Kind.blob info w

/-- Function `snd_ctl_hw_pcm_next_device`, lines 277-283. -/
def snd_ctl_hw_pcm_next_device (S : Sys σ) (hw : snd_ctl_hw_t) (device : Int)
    (w : World σ) : (Int × Int) × (snd_ctl_hw_t × World σ) :=
  ioctl_or_errno S hw Request.PCM_NEXT_DEVICE Kind.int device w

/-- Function `snd_ctl_hw_pcm_info`, lines 285-294. -/
def snd_ctl_hw_pcm_info (S : Sys σ) (hw : snd_ctl_hw_t) (info : Mem) (w : World σ) :
    (Int × Mem) × (snd_ctl_hw_t × World σ) :=
  match sys_ioctl S hw.fd Request.PCM_INFO Kind.blob info w with
  | (r, w1) =>
    if r.val < 0 then ((neg_errno r.errno, r.out), (hw, w1))
    else if S.eld_fixup_check r.out then
      ((sys_eld_fixup S r.out w1).1, (hw, (sys_eld_fixup S r.out w1).2))
    else ((0, r.out), (hw, w1))

/-- Function `snd_ctl_hw_pcm_prefer_subdevice`, lines 296-302. -/
def snd_ctl_hw_pcm_prefer_subdevice (S : Sys σ) (hw : snd_ctl_hw_t) (subdev : Int)
    (w : World σ) : (Int × Int) × (snd_ctl_hw_t × World σ) :=
  ioctl_or_errno S hw Request.PCM_PREFER_SUBDEVICE Kind.int subdev w

/-- Function `snd_ctl_hw_rawmidi_next_device`, lines 304-310. -/
def snd_ctl_hw_rawmidi_next_device (S : Sys σ) (hw : snd_ctl_hw_t) (device : Int)
    (w : World σ) : (Int × Int) × (snd_ctl_hw_t × World σ) :=
  ioctl_or_errno S hw Request.RAWMIDI_NEXT_DEVICE Kind.int device w

/-- Function `snd_ctl_hw_rawmidi_info`, lines 312-318. -/
def snd_ctl_hw_rawmidi_info (S : Sys σ) (hw : snd_ctl_hw_t) (info : Mem) (w : World σ) :
    (Int × Mem) × (snd_ctl_hw_t × World σ) :=
  ioctl_or_errno S hw Request.RAWMIDI_INFO Kind.blob info w

/-- Function `snd_ctl_hw_rawmidi_prefer_subdevice`, lines 320-326. -/
def snd_ctl_hw_rawmidi_prefer_subdevice (S : Sys σ) (hw : snd_ctl_hw_t) (subdev : Int)
    (w : World σ) : (Int × Int) × (snd_ctl_hw_t × World σ) :=
  ioctl_or_errno S hw Request.RAWMIDI_PREFER_SUBDEVICE Kind.int subdev w

/-- Function `snd_ctl_hw_set_power_state`, lines 328-334. -/
def snd_ctl_hw_set_power_state (S : Sys σ) (hw : snd_ctl_hw_t) (state : Nat)
    (w : World σ) : (Int × Nat) × (snd_ctl_hw_t × World σ) :=
  ioctl_or_errno S hw Request.POWER Kind.uint state w

/-- Function `snd_ctl_hw_get_power_state`, lines 336-342. -/
def snd_ctl_hw_get_power_state (S : Sys σ) (hw : snd_ctl_hw_t) (state : Nat)
    (w : World σ) : (Int × Nat) × (snd_ctl_hw_t × World σ) :=
  ioctl_or_errno S hw Request.POWER_STATE Kind.uint state w

/-- Function `snd_ctl_hw_read`, lines 344-356.  Returns the C return value and the bytes
of `*event` afterwards, then the backend state and the world it leaves. -/
def snd_ctl_hw_read (S : Sys σ) (hw : snd_ctl_hw_t) (event : Mem) (w : World σ) :
    (Int × Mem) × (snd_ctl_hw_t × World σ) :=
  match sys_read S hw.fd event S.sizeof_event w with
  | (r, w1) =>
    if r.res ≤ 0 then ((-(r.errno : Int), r.event), (hw, w1))
    else if CHECK_SANITY (decide (r.res ≠ ((S.sizeof_event : Nat) : Int))) then
      ((-EINVAL, r.event), (hw, w1))
    else ((1, r.event), (hw, w1))

/-- One entry of the dispatch table `snd_ctl_hw_ops` (lines 358-385) with the arguments
it is called with. -/
inductive Call
  | close
  | nonblock (nonblock : Int)
  | async (sig pid : Int)
  | subscribe_events (subscribe : Int)
  | card_info (info : Mem)
  | element_list (list : Mem)
  | element_info (info : snd_ctl_elem_info_t)
  | element_add (info : snd_ctl_elem_info_t)
  | element_replace (info : snd_ctl_elem_info_t)
  | element_remove (id : Mem)
  | element_read (control : Mem)
  | element_write (control : Mem)
  | element_lock (id : Mem)
  | element_unlock (id : Mem)
  | element_tlv (op_flag : Int) (numid : Nat) (tlv : Mem) (tlv_size : Nat)
  | hwdep_next_device (device : Int)
  | hwdep_info (info : Mem)
  | pcm_next_device (device : Int)
  | pcm_info (info : Mem)
  | pcm_prefer_subdevice (subdev : Int)
  | rawmidi_next_device (device : Int)
  | rawmidi_info (info : Mem)
  | rawmidi_prefer_subdevice (subdev : Int)
  | set_power_state (state : Nat)
  | get_power_state (state : Nat)
  | read (event : Mem)

/-- The dispatch table `snd_ctl_hw_ops`, lines 358-385, applied to a handle whose
private data is `hw`: the C return value of the entry called, and the private data
the handle refers to afterwards: the backend state the entry leaves behind, or `none`
once `close` has freed it. -/
def snd_ctl_hw_ops (S : Sys σ) (hw : snd_ctl_hw_t) (c : Call) (w : World σ) :
    (Int × Option snd_ctl_hw_t) × World σ :=
  match c with
  | Call.close => (((snd_ctl_hw_close S hw w).1, none), (snd_ctl_hw_close S hw w).2)
  | Call.nonblock n =>
    (((snd_ctl_hw_nonblock S hw n w).1, some (snd_ctl_hw_nonblock S hw n w).2.1),
      (snd_ctl_hw_nonblock S hw n w).2.2)
  | Call.async sig pid =>
    (((snd_ctl_hw_async S hw sig pid w).1, some (snd_ctl_hw_async S hw sig pid w).2.1),
      (snd_ctl_hw_async S hw sig pid w).2.2)
  | Call.subscribe_events x =>
    (((snd_ctl_hw_subscribe_events S hw x w).1.1, some (snd_ctl_hw_subscribe_events S hw x w).2.1),
      (snd_ctl_hw_subscribe_events S hw x w).2.2)
  | Call.card_info x =>
    (((snd_ctl_hw_card_info S hw x w).1.1, some (snd_ctl_hw_card_info S hw x w).2.1),
      (snd_ctl_hw_card_info S hw x w).2.2)
  | Call.element_list x =>
    (((snd_ctl_hw_elem_list S hw x w).1.1, some (snd_ctl_hw_elem_list S hw x w).2.1),
      (snd_ctl_hw_elem_list S hw x w).2.2)
  | Call.element_info x =>
    (((snd_ctl_hw_elem_info S hw x w).1.1, some (snd_ctl_hw_elem_info S hw x w).2.1),
      (snd_ctl_hw_elem_info S hw x w).2.2)
  | Call.element_add x =>
    (((snd_ctl_hw_elem_add S hw x w).1.1, some (snd_ctl_hw_elem_add S hw x w).2.1),
      (snd_ctl_hw_elem_add S hw x w).2.2)
  | Call.element_replace x =>
    (((snd_ctl_hw_elem_replace S hw x w).1.1, some (snd_ctl_hw_elem_replace S hw x w).2.1),
      (snd_ctl_hw_elem_replace S hw x w).2.2)
  | Call.element_remove x =>
    (((snd_ctl_hw_elem_remove S hw x w).1.1, some (snd_ctl_hw_elem_remove S hw x w).2.1),
      (snd_ctl_hw_elem_remove S hw x w).2.2)
  | Call.element_read x =>
    (((snd_ctl_hw_elem_read S hw x w).1.1, some (snd_ctl_hw_elem_read S hw x w).2.1),
      (snd_ctl_hw_elem_read S hw x w).2.2)
  | Call.element_write x =>
    (((snd_ctl_hw_elem_write S hw x w).1.1, some (snd_ctl_hw_elem_write S hw x w).2.1),
      (snd_ctl_hw_elem_write S hw x w).2.2)
  | Call.element_lock x =>
    (((snd_ctl_hw_elem_lock S hw x w).1.1, some (snd_ctl_hw_elem_lock S hw x w).2.1),
      (snd_ctl_hw_elem_lock S hw x w).2.2)
  | Call.element_unlock x =>
    (((snd_ctl_hw_elem_unlock S hw x w).1.1, some (snd_ctl_hw_elem_unlock S hw x w).2.1),
      (snd_ctl_hw_elem_unlock S hw x w).2.2)
  | Call.element_tlv op_flag numid tlv tlv_size =>
    (((snd_ctl_hw_elem_tlv S hw op_flag numid tlv tlv_size w).1.1, some (snd_ctl_hw_elem_tlv S hw op_flag numid tlv tlv_size w).2.1),
      (snd_ctl_hw_elem_tlv S hw op_flag numid tlv tlv_size w).2.2)
  | Call.hwdep_next_device x =>
    (((snd_ctl_hw_hwdep_next_device S hw x w).1.1, some (snd_ctl_hw_hwdep_next_device S hw x w).2.1),
      (snd_ctl_hw_hwdep_next_device S hw x w).2.2)
  | Call.hwdep_info x =>
    (((snd_ctl_hw_hwdep_info S hw x w).1.1, some (snd_ctl_hw_hwdep_info S hw x w).2.1),
      (snd_ctl_hw_hwdep_info S hw x w).2.2)
  | Call.pcm_next_device x =>
    (((snd_ctl_hw_pcm_next_device S hw x w).1.1, some (snd_ctl_hw_pcm_next_device S hw x w).2.1),
      (snd_ctl_hw_pcm_next_device S hw x w).2.2)
  | Call.pcm_info x =>
    (((snd_ctl_hw_pcm_info S hw x w).1.1, some (snd_ctl_hw_pcm_info S hw x w).2.1),
      (snd_ctl_hw_pcm_info S hw x w).2.2)
  | Call.pcm_prefer_subdevice x =>
    (((snd_ctl_hw_pcm_prefer_subdevice S hw x w).1.1, some (snd_ctl_hw_pcm_prefer_subdevice S hw x w).2.1),
      (snd_ctl_hw_pcm_prefer_subdevice S hw x w).2.2)
  | Call.rawmidi_next_device x =>
    (((snd_ctl_hw_rawmidi_next_device S hw x w).1.1, some (snd_ctl_hw_rawmidi_next_device S hw x w).2.1),
      (snd_ctl_hw_rawmidi_next_device S hw x w).2.2)
  | Call.rawmidi_info x =>
    (((snd_ctl_hw_rawmidi_info S hw x w).1.1, some (snd_ctl_hw_rawmidi_info S hw x w).2.1),
      (snd_ctl_hw_rawmidi_info S hw x w).2.2)
  | Call.rawmidi_prefer_subdevice x =>
    (((snd_ctl_hw_rawmidi_prefer_subdevice S hw x w).1.1, some (snd_ctl_hw_rawmidi_prefer_subdevice S hw x w).2.1),
      (snd_ctl_hw_rawmidi_prefer_subdevice S hw x w).2.2)
  | Call.set_power_state x =>
    (((snd_ctl_hw_set_power_state S hw x w).1.1, some (snd_ctl_hw_set_power_state S hw x w).2.1),
      (snd_ctl_hw_set_power_state S hw x w).2.2)
  | Call.get_power_state x =>
    (((snd_ctl_hw_get_power_state S hw x w).1.1, some (snd_ctl_hw_get_power_state S hw x w).2.1),
      (snd_ctl_hw_get_power_state S hw x w).2.2)
  | Call.read x => (((snd_ctl_hw_read S hw x w).1.1, some (snd_ctl_hw_read S hw x w).2.1),
      (snd_ctl_hw_read S hw x w).2.2)

/-! ## Opening the device -/

/-- The device path `SNDRV_FILE_CONTROL` (line 48) filled in by `sprintf`, line 413;
`ALSA_DEVICE_DIRECTORY` is the directory of the sound device nodes. -/
def SNDRV_FILE_CONTROL (card : Int) : String :=
  "/dev/snd/" ++ "controlC" ++ toString card

/-- The open flags derived from the mode, lines 414-421. -/
def open_fmode (mode : Int) : Int :=
  let fmode0 : Int := if Int.land mode SND_CTL_READONLY ≠ 0 then O_RDONLY else O_RDWR
  let fmode1 : Int := if Int.land mode SND_CTL_NONBLOCK ≠ 0 then Int.lor fmode0 O_NONBLOCK else fmode0
  if Int.land mode SND_CTL_ASYNC ≠ 0 then Int.lor fmode1 O_ASYNC else fmode1

/-- The two attempts of lines 422-426: the device is opened, and when that fails the
card is loaded and the device opened once more.  The reply is that of the attempt that
supplies `fd` to the test of line 426 or to the code after line 428. -/
def open_device_retry (S : Sys σ) (filename : String) (fmode card : Int) (w : World σ) :
    Reply Unit × World σ :=
  match sys_open_device S filename fmode w with
  | (o1, w1) =>
    if o1.val < 0 then sys_open_device S filename fmode (sys_card_load S card w1)
    else (o1, w1)

/-- Function `snd_ctl_hw_open`, lines 398-458.  Returns the C return value and `*handle`
afterwards (`none` is `NULL`). -/
def snd_ctl_hw_open (S : Sys σ) (name : String) (card mode : Int) (w : World σ) :
    (Int × Option snd_ctl_t) × World σ :=
  if CHECK_SANITY (decide (card < 0) || decide (card ≥ SND_MAX_CARDS)) then
    ((-EINVAL, none), w)
  else
    match open_device_retry S (SNDRV_FILE_CONTROL card) (open_fmode mode) card w with
    | (o, w1) =>
      if o.val < 0 then ((neg_errno o.errno, none), w1)
      else
        match sys_ioctl S o.val Request.PVERSION Kind.int S.uninit_int w1 with
        | (v, w2) =>
          let ver : Int := v.out
          if v.val < 0 then ((neg_errno v.errno, none), (sys_close S o.val w2).2)
          else if SNDRV_PROTOCOL_INCOMPATIBLE ver SNDRV_CTL_VERSION_MAX then
            ((-SND_ERROR_INCOMPATIBLE_VERSION, none), (sys_close S o.val w2).2)
          else
            match sys_calloc S 1 sizeof_snd_ctl_hw_t w2 with
            | (false, w3) => ((-ENOMEM, none), (sys_close S o.val w3).2)
            | (true, w3) =>
              let hw : snd_ctl_hw_t :=
                { card := card, fd := o.val, protocol := (ver % 2 ^ 32).toNat }
              match sys_ctl_new S name mode w3 with
              | (c, w4) =>
                if c.val < 0 then ((c.val, none), sys_free (sys_close S o.val w4).2)
                else
                  ((0, some { name := c.out.name, mode := c.out.mode, hw_ops := true,
                              private_data := some hw, poll_fd := o.val }), w4)

/-! ## A storing stand-in for the transport -/

/-- State of the storing stand-in: per identifier, the length and the bytes of the
payload last sent by `TLV_WRITE`. -/
abbrev Store := Nat → Option (Nat × Mem)

/-- The exchange of the storing stand-in: `TLV_WRITE` records the payload under its
identifier, `TLV_READ` puts the recorded payload at the start of the block (and fails
when nothing is recorded or the block is too short), every other request succeeds
and changes nothing. -/
def standin_ioctl (_fd : Int) (request : Request) :
    (k : Kind) → k.T → Store → Reply k.T × Store
  | Kind.tlv, x, st =>
    match request with
    | Request.TLV_WRITE =>
      (⟨0, 1, x⟩, fun id => if id = x.numid then some (x.length, x.tlv) else st id)
    | Request.TLV_READ =>
      match st x.numid with
      | some (n, p) =>
        if n ≤ x.length then
          (⟨0, 1, { numid := x.numid, length := x.length, tlv := memcpy x.tlv p n }⟩, st)
        else (⟨-1, 12, x⟩, st)
      | none => (⟨-1, 6, x⟩, st)
    | _ => (⟨0, 1, x⟩, st)
  | Kind.elem_info, a, st => (⟨0, 1, a⟩, st)
  | Kind.int, a, st => (⟨0, 1, a⟩, st)
  | Kind.uint, a, st => (⟨0, 1, a⟩, st)
  | Kind.blob, a, st => (⟨0, 1, a⟩, st)

/-- The storing stand-in as a complete outside machine: allocation always succeeds
and hands out blocks holding the bytes `heap`, `open` yields descriptor 3, the
device reports version `ver`, the flag word of a descriptor reads as `flags`. -/
def standin (big_endian : Bool) (heap : Mem) (ver flags : Int) : Sys Store where
  big_endian := big_endian
  uninit_int := 0
  sizeof_event := 72
  ioctl := fun fd request k arg st =>
    match k, arg with
    | Kind.int, a =>
      if request = Request.PVERSION then (⟨0, 1, ver⟩, st) else standin_ioctl fd request Kind.int a st
    | k, a => standin_ioctl fd request k a st
  fcntl := fun _ cmd _ st => (⟨if cmd = Fcntl.F_GETFL then flags else 0, 1, ()⟩, st)
  read := fun _ ev count st => (⟨count, 0, ev⟩, st)
  close := fun _ st => (⟨0, 1, ()⟩, st)
  malloc := fun _ st => (some heap, st)
  calloc := fun _ _ st => (true, st)
  open_device := fun _ _ st => (⟨3, 1, ()⟩, st)
  card_load := fun _ st => st
  ctl_new := fun name mode st =>
    (⟨0, 1, { name := name, mode := mode, hw_ops := false, private_data := none, poll_fd := -1 }⟩, st)
  eld_fixup_check := fun _ => false
  eld_fixup := fun info st => ((0, info), st)

/-! ## Concrete data used in the evaluations below -/

/-- An eight-byte TLV block whose length word, in little-endian order, is
`0xFFFFFFFC`; its first byte is 1. -/
def wrap_payload : Mem :=
  fun i => if i = 0 then 1 else if i = 4 then 252 else if i < 8 then 255 else 0

/-- A store holding `wrap_payload` under identifier 7. -/
def wrap_store : Store :=
  fun id => if id = 7 then some (8, wrap_payload) else none

/-- A backend on descriptor 3 of card 0 that negotiated version 2.0.4. -/
def hw_2_0_4 : snd_ctl_hw_t :=
  { card := 0, fd := 3, protocol := SNDRV_PROTOCOL_VERSION 2 0 4 }

/-- A little-endian storing stand-in whose allocator hands out zeroed blocks. -/
def standin_le : Sys Store := standin false (fun _ => 0) 131076 2

/-- The stand-in at end of file: `read` returns 0 and, as a call that does not fail,
leaves `errno` at the value it had, here 0. -/
def standin_eof : Sys Store :=
  { standin_le with read := fun _ ev _ st => (⟨0, 0, ev⟩, st) }

/-- The stand-in reporting protocol version `ver` on `PVERSION`. -/
def standin_ver (ver : Int) : Sys Store := standin false (fun _ => 0) ver 2

/-! ## Properties of the TLV marshaller -/

/-- The value `-errno` left by a failed call is negative. -/
theorem neg_errno_neg (e : ℕ+) : neg_errno e < 0 := by
  have := e.pos
  simp only [neg_errno]
  omega

/-- C4. On a backend whose negotiated version is below 2.0.4, `snd_ctl_hw_elem_tlv`
returns `-ENXIO` for every `op_flag`, identifier, buffer and capacity; the caller's
buffer is unchanged and the world is the one it was called in: nothing was allocated,
no exchange was issued, no call left the function at all. -/
theorem elem_tlv_rejects_old_protocol (S : Sys σ) (hw : snd_ctl_hw_t) (op_flag : Int)
    (numid : Nat) (tlv : Mem) (tlv_size : Nat) (w : World σ)
    (h : hw.protocol < SNDRV_PROTOCOL_VERSION 2 0 4) :
    (snd_ctl_hw_elem_tlv S hw op_flag numid tlv tlv_size w).1.1 = - ENXIO ∧
    (snd_ctl_hw_elem_tlv S hw op_flag numid tlv tlv_size w).1.2 = tlv ∧
    (snd_ctl_hw_elem_tlv S hw op_flag numid tlv tlv_size w).2.2.trace = w.trace ∧
    (snd_ctl_hw_elem_tlv S hw op_flag numid tlv tlv_size w).2.2.kernel = w.kernel := by
  simp [snd_ctl_hw_elem_tlv, h]

/-- The gate at a backend that negotiated 2.0.3, asked for a read of capacity 16. -/
theorem elem_tlv_rejects_old_protocol_witness :
    (⟨0, 3, SNDRV_PROTOCOL_VERSION 2 0 3⟩ : snd_ctl_hw_t).protocol < SNDRV_PROTOCOL_VERSION 2 0 4 ∧
    (snd_ctl_hw_elem_tlv (standin false (fun _ => 0) 131075 2) ⟨0, 3, SNDRV_PROTOCOL_VERSION 2 0 3⟩
      0 7 (fun _ => 5) 16 ⟨fun _ => none, []⟩).1.1 = - ENXIO :=
  ⟨by decide, (elem_tlv_rejects_old_protocol (standin false (fun _ => 0) 131075 2)
    ⟨0, 3, SNDRV_PROTOCOL_VERSION 2 0 3⟩ 0 7 (fun _ => 5) 16 ⟨fun _ => none, []⟩ (by decide)).1⟩

/-- C1. A read-mode call (`op_flag = 0`) of `snd_ctl_hw_elem_tlv`, for every backend
(whatever its negotiated version), identifier, caller buffer, capacity `tlv_size` and
behaviour of the outside machine, leaves every byte of the caller's buffer at an offset
`≥ tlv_size` as it was; and when it returns 0 the block was allocated, the exchange
succeeded and, with `size` the response's word `tlv[1]` plus 8 reduced modulo `2 ^ 32`,
`size ≤ tlv_size`, the first `size` bytes of the buffer are the first `size` bytes of
the response payload and every byte at an offset `≥ size` is unchanged. -/
theorem elem_tlv_read_within_capacity (S : Sys σ) (hw : snd_ctl_hw_t) (numid : Nat)
    (tlv : Mem) (tlv_size : Nat) (w : World σ) :
    (∀ i, tlv_size ≤ i → (snd_ctl_hw_elem_tlv S hw 0 numid tlv tlv_size w).1.2 i = tlv i) ∧
    ((snd_ctl_hw_elem_tlv S hw 0 numid tlv tlv_size w).1.1 = 0 →
      ∃ (blk : Mem) (response : Reply snd_ctl_tlv) (size : Nat),
        (S.malloc (sizeof_snd_ctl_tlv + tlv_size) w.kernel).1 = some blk ∧
        response = (S.ioctl hw.fd Request.TLV_READ Kind.tlv
          { numid := numid, length := tlv_size, tlv := memcpy blk tlv tlv_size }
          (S.malloc (sizeof_snd_ctl_tlv + tlv_size) w.kernel).2).1 ∧
        0 ≤ response.val ∧
        size = (load_u32 S.big_endian response.out.tlv 1 + 8) % 2 ^ 32 ∧
        size ≤ tlv_size ∧
        (∀ i, i < size →
          (snd_ctl_hw_elem_tlv S hw 0 numid tlv tlv_size w).1.2 i = response.out.tlv i) ∧
        (∀ i, size ≤ i →
          (snd_ctl_hw_elem_tlv S hw 0 numid tlv tlv_size w).1.2 i = tlv i)) := by
  have hE1 : (- ENXIO : Int) ≠ 0 := by decide
  have hE2 : (-ENOMEM : Int) ≠ 0 := by decide
  have hE3 : (-EFAULT : Int) ≠ 0 := by decide
  simp only [snd_ctl_hw_elem_tlv, tlv_inum, sys_malloc, sys_ioctl, sys_free,
    SNDRV_CTL_TLVO_LEN, sizeof_unsigned_int]
  by_cases hp : hw.protocol < SNDRV_PROTOCOL_VERSION 2 0 4
  · simp [hp, hE1]
  · simp only [hp, if_false]
    rcases hm : (S.malloc (sizeof_snd_ctl_tlv + tlv_size) w.kernel).1 with _ | blk
    · simp [hE2]
    · simp only [show ((0 : Int) = -1) = False from by simp, if_false, if_true]
      generalize hR : S.ioctl hw.fd Request.TLV_READ Kind.tlv
          { numid := numid, length := tlv_size, tlv := memcpy blk tlv tlv_size }
          (S.malloc (sizeof_snd_ctl_tlv + tlv_size) w.kernel).2 = R
      have hneg := neg_errno_neg R.1.errno
      split_ifs with h1 h2
      · exact ⟨fun _ _ => rfl, fun h => absurd h (ne_of_lt hneg)⟩
      · exact ⟨fun _ _ => rfl, fun h => absurd h hE3⟩
      · refine ⟨fun i hi => ?_,
          fun _ => ⟨blk, R.1, _, rfl, by rw [hR], by omega, rfl, by omega, ?_, ?_⟩⟩
        · simp only [memcpy]
          rw [if_neg (by omega)]
        · intro i hi
          simp only [memcpy]
          rw [if_pos (by omega)]
        · intro i hi
          simp only [memcpy]
          rw [if_neg (by omega)]

/-- The size test of the read path where the sum does not wrap: when the exchange of a
read-mode call succeeds and the response's word `tlv[1]` plus 8, reduced modulo
`2 ^ 32`, exceeds `tlv_size`, the call returns `-EFAULT` and the caller's buffer is
unchanged. -/
theorem elem_tlv_read_too_large (S : Sys σ) (hw : snd_ctl_hw_t) (numid : Nat)
    (tlv blk : Mem) (tlv_size : Nat) (w : World σ)
    (hv : SNDRV_PROTOCOL_VERSION 2 0 4 ≤ hw.protocol)
    (hm : (S.malloc (sizeof_snd_ctl_tlv + tlv_size) w.kernel).1 = some blk)
    (hok : 0 ≤ (S.ioctl hw.fd Request.TLV_READ Kind.tlv
      { numid := numid, length := tlv_size, tlv := memcpy blk tlv tlv_size }
      (S.malloc (sizeof_snd_ctl_tlv + tlv_size) w.kernel).2).1.val)
    (hbig : tlv_size < (load_u32 S.big_endian (S.ioctl hw.fd Request.TLV_READ Kind.tlv
      { numid := numid, length := tlv_size, tlv := memcpy blk tlv tlv_size }
      (S.malloc (sizeof_snd_ctl_tlv + tlv_size) w.kernel).2).1.out.tlv 1 + 8) % 2 ^ 32) :
    (snd_ctl_hw_elem_tlv S hw 0 numid tlv tlv_size w).1 = (-EFAULT, tlv) := by
  have hv' : ¬ hw.protocol < SNDRV_PROTOCOL_VERSION 2 0 4 := by omega
  simp only [snd_ctl_hw_elem_tlv, tlv_inum, sys_malloc, sys_ioctl, sys_free,
    SNDRV_CTL_TLVO_LEN, sizeof_unsigned_int, hv', hm]
  simp only [show ((0 : Int) = -1) = False from by simp, if_false, if_true]
  rw [if_neg (by omega), if_pos (by simpa using hbig)]

/-- C2 (the code at the failing input). The stand-in answers a read of capacity 16 with
a block whose length word is `0xFFFFFFFC`: the declared length plus 8 is 4294967300,
far more than 16, yet `snd_ctl_hw_elem_tlv` computes `size = 4`, returns 0 and
overwrites the first byte of the caller's buffer (0 before, 1 after). -/
theorem elem_tlv_read_size_wraps :
    load_u32 standin_le.big_endian
      (standin_le.ioctl 3 Request.TLV_READ Kind.tlv
        { numid := 7, length := 16, tlv := memcpy (fun _ => 0) (fun _ => 0) 16 }
        wrap_store).1.out.tlv 1 + 8 = 4294967300 ∧
    (snd_ctl_hw_elem_tlv standin_le hw_2_0_4 0 7 (fun _ => 0) 16 ⟨wrap_store, []⟩).1.1 = 0 ∧
    (snd_ctl_hw_elem_tlv standin_le hw_2_0_4 0 7 (fun _ => 0) 16 ⟨wrap_store, []⟩).1.2 0 = 1 := by
  decide

/-- C3 (counterexample). A twelve-byte payload of zeros declares, in its length word,
a block of 0 + 8 bytes.  Written under identifier 7 and read back with capacity 12 into
a buffer of ones, both calls return 0, but the read copies only eight bytes: byte 8 of
the buffer is still 1, not the 0 that was written. -/
theorem elem_tlv_round_trip_fails :
    ¬ ((snd_ctl_hw_elem_tlv standin_le hw_2_0_4 1 7 (fun _ => 0) 12 ⟨fun _ => none, []⟩).1.1 = 0 ∧
      (snd_ctl_hw_elem_tlv standin_le
        (snd_ctl_hw_elem_tlv standin_le hw_2_0_4 1 7 (fun _ => 0) 12 ⟨fun _ => none, []⟩).2.1
        0 7 (fun _ => 1) 12
        (snd_ctl_hw_elem_tlv standin_le hw_2_0_4 1 7 (fun _ => 0) 12 ⟨fun _ => none, []⟩).2.2).1.1
        = 0 ∧
      ∀ i, i < 12 →
        (snd_ctl_hw_elem_tlv standin_le
          (snd_ctl_hw_elem_tlv standin_le hw_2_0_4 1 7 (fun _ => 0) 12 ⟨fun _ => none, []⟩).2.1
          0 7 (fun _ => 1) 12
          (snd_ctl_hw_elem_tlv standin_le hw_2_0_4 1 7 (fun _ => 0) 12 ⟨fun _ => none, []⟩).2.2).1.2 i
          = (fun _ => 0 : Mem) i) := by
  intro h
  have h8 := h.2.2 8 (by decide)
  revert h8
  decide

/-- The word at an index depends only on the four bytes it occupies. -/
theorem load_u32_congr (be : Bool) (m m' : Mem) (idx : Nat)
    (h : ∀ k, k < 4 → m (4 * idx + k) = m' (4 * idx + k)) :
    load_u32 be m idx = load_u32 be m' idx := by
  simp only [load_u32, h 0 (by decide), h 1 (by decide), h 2 (by decide), h 3 (by decide)]

/-- What a write-mode call does on the storing stand-in: it returns 0, leaves the
caller's buffer and the backend state alone and records the payload under the
identifier. -/
theorem standin_write (be : Bool) (heap : Mem) (ver flags : Int) (hw : snd_ctl_hw_t)
    (id n : Nat) (payload : Mem) (w : World Store)
    (hv : SNDRV_PROTOCOL_VERSION 2 0 4 ≤ hw.protocol) :
    (snd_ctl_hw_elem_tlv (standin be heap ver flags) hw 1 id payload n w).1 = (0, payload) ∧
    (snd_ctl_hw_elem_tlv (standin be heap ver flags) hw 1 id payload n w).2.1 = hw ∧
    (snd_ctl_hw_elem_tlv (standin be heap ver flags) hw 1 id payload n w).2.2.kernel id =
      some (n, memcpy heap payload n) := by
  have hv' : ¬ hw.protocol < SNDRV_PROTOCOL_VERSION 2 0 4 := by omega
  simp [snd_ctl_hw_elem_tlv, hv', tlv_inum, sys_malloc, sys_ioctl, sys_free, standin,
    standin_ioctl]

/-- What a read-mode call does on the storing stand-in when a payload of `n ≤ cap`
bytes is recorded under the identifier and the size declared by the response fits. -/
theorem standin_read (be : Bool) (heap : Mem) (ver flags : Int) (hw : snd_ctl_hw_t)
    (id n cap : Nat) (p buf : Mem) (w : World Store)
    (hv : SNDRV_PROTOCOL_VERSION 2 0 4 ≤ hw.protocol)
    (hst : w.kernel id = some (n, p)) (hn : n ≤ cap)
    (hsz : (load_u32 be (memcpy (memcpy heap buf cap) p n) 1 + 8) % 2 ^ 32 ≤ cap) :
    (snd_ctl_hw_elem_tlv (standin be heap ver flags) hw 0 id buf cap w).1 =
      (0, memcpy buf (memcpy (memcpy heap buf cap) p n)
        ((load_u32 be (memcpy (memcpy heap buf cap) p n) 1 + 8) % 2 ^ 32)) := by
  have hv' : ¬ hw.protocol < SNDRV_PROTOCOL_VERSION 2 0 4 := by omega
  have hsz' : ¬ cap < (load_u32 be (memcpy (memcpy heap buf cap) p n) 1 + 8) % 4294967296 := by
    simpa using hsz
  simp [snd_ctl_hw_elem_tlv, hv', tlv_inum, sys_malloc, sys_ioctl, sys_free, standin,
    standin_ioctl, hst, hn, SNDRV_CTL_TLVO_LEN, sizeof_unsigned_int, hsz']

/-- C3 (amended). Against the storing stand-in, on a backend whose negotiated version
is at least 2.0.4: for every identifier, every payload of `n ≥ 8` bytes whose declared
size (its length word `tlv[1]` plus 8, modulo `2 ^ 32`) is at least `n`, and every read
capacity that is at least that declared size, a write of the `n` bytes followed by a
read returns 0 both times and the first `n` bytes of the read buffer are the bytes
written, whatever the buffer held before. -/
theorem elem_tlv_round_trip (be : Bool) (heap : Mem) (ver flags : Int) (hw : snd_ctl_hw_t)
    (id n cap : Nat) (payload buf : Mem) (w : World Store)
    (hv : SNDRV_PROTOCOL_VERSION 2 0 4 ≤ hw.protocol) (hn : 8 ≤ n)
    (hlo : n ≤ (load_u32 be payload 1 + 8) % 2 ^ 32)
    (hhi : (load_u32 be payload 1 + 8) % 2 ^ 32 ≤ cap) :
    (snd_ctl_hw_elem_tlv (standin be heap ver flags) hw 1 id payload n w).1.1 = 0 ∧
    (snd_ctl_hw_elem_tlv (standin be heap ver flags)
      (snd_ctl_hw_elem_tlv (standin be heap ver flags) hw 1 id payload n w).2.1 0 id buf cap
      (snd_ctl_hw_elem_tlv (standin be heap ver flags) hw 1 id payload n w).2.2).1.1 = 0 ∧
    ∀ i, i < n →
      (snd_ctl_hw_elem_tlv (standin be heap ver flags)
        (snd_ctl_hw_elem_tlv (standin be heap ver flags) hw 1 id payload n w).2.1 0 id buf cap
        (snd_ctl_hw_elem_tlv (standin be heap ver flags) hw 1 id payload n w).2.2).1.2 i
        = payload i := by
  obtain ⟨hw1, hwb, hw2⟩ := standin_write be heap ver flags hw id n payload w hv
  have hword : load_u32 be (memcpy (memcpy heap buf cap) (memcpy heap payload n) n) 1
      = load_u32 be payload 1 := by
    apply load_u32_congr
    intro k hk
    simp only [memcpy]
    rw [if_pos (by omega), if_pos (by omega)]
  rw [hwb]
  have hrd := standin_read be heap ver flags hw id n cap (memcpy heap payload n) buf _ hv hw2
    (by omega) (by rw [hword]; exact hhi)
  rw [hrd, hw1, hword]
  refine ⟨rfl, rfl, fun i hi => ?_⟩
  simp only [memcpy]
  rw [if_pos (by omega), if_pos hi, if_pos hi]

/-- A twelve-byte block declaring 4 + 8 bytes, written under identifier 7 and read back
with capacity 16 into a buffer of ones: byte 11 of the buffer is the 9 written. -/
theorem elem_tlv_round_trip_witness :
    (snd_ctl_hw_elem_tlv standin_le
      (snd_ctl_hw_elem_tlv standin_le hw_2_0_4 1 7
        (fun i => if i = 4 then 4 else if i < 8 then 0 else 9) 12 ⟨fun _ => none, []⟩).2.1
      0 7 (fun _ => 1) 16
      (snd_ctl_hw_elem_tlv standin_le hw_2_0_4 1 7
        (fun i => if i = 4 then 4 else if i < 8 then 0 else 9) 12 ⟨fun _ => none, []⟩).2.2).1.2 11
      = 9 :=
  (elem_tlv_round_trip false (fun _ => 0) 131076 2 hw_2_0_4 7 12 16
    (fun i => if i = 4 then 4 else if i < 8 then 0 else 9) (fun _ => 1) ⟨fun _ => none, []⟩
    (by decide) (by decide) (by decide) (by decide)).2.2 11 (by decide)

/-- C6 (counterexample). At end of file `read` returns 0 and leaves `errno` at 0; the
result is "zero or negative", yet `snd_ctl_hw_read` returns `-errno = 0`, which is not
a negative value. -/
theorem read_eof_returns_zero :
    (standin_eof.read 3 (fun _ => 0) 72 (fun _ => none)).1.res ≤ 0 ∧
    ¬ (snd_ctl_hw_read standin_eof hw_2_0_4 (fun _ => 0) ⟨fun _ => none, []⟩).1.1 < 0 := by
  decide

/-- C6 (amended). `snd_ctl_hw_read` performs one `read` of the event record size on the
backend's descriptor, and for every result `res` of it: if `res` equals the record size
the call returns 1; if `res` is any other positive size it returns `-EINVAL`; if `res`
is zero or negative it returns `-errno`, which is never positive and is negative
whenever `errno` is non-zero; so the call returns 1 if and only if the transport
returned exactly the record size. -/
theorem read_result (S : Sys σ) (hw : snd_ctl_hw_t) (event : Mem) (w : World σ) :
    (snd_ctl_hw_read S hw event w).2.2.trace = w.trace ++ [Event.read hw.fd S.sizeof_event] ∧
    ((S.read hw.fd event S.sizeof_event w.kernel).1.res = ((S.sizeof_event : Nat) : Int) →
      (snd_ctl_hw_read S hw event w).1.1 = 1) ∧
    (0 < (S.read hw.fd event S.sizeof_event w.kernel).1.res →
      (S.read hw.fd event S.sizeof_event w.kernel).1.res ≠ ((S.sizeof_event : Nat) : Int) →
      (snd_ctl_hw_read S hw event w).1.1 = -EINVAL) ∧
    ((S.read hw.fd event S.sizeof_event w.kernel).1.res ≤ 0 →
      (snd_ctl_hw_read S hw event w).1.1 =
        -((S.read hw.fd event S.sizeof_event w.kernel).1.errno : Int) ∧
      (snd_ctl_hw_read S hw event w).1.1 ≤ 0 ∧
      (0 < (S.read hw.fd event S.sizeof_event w.kernel).1.errno →
        (snd_ctl_hw_read S hw event w).1.1 < 0)) ∧
    ((snd_ctl_hw_read S hw event w).1.1 = 1 ↔
      (S.read hw.fd event S.sizeof_event w.kernel).1.res = ((S.sizeof_event : Nat) : Int)) := by
  have hpos := S.sizeof_event.pos
  have hE : (-EINVAL : Int) ≠ 1 := by decide
  simp only [snd_ctl_hw_read, sys_read, CHECK_SANITY]
  by_cases h0 : (S.read hw.fd event S.sizeof_event w.kernel).1.res ≤ 0
  · simp only [if_pos h0]
    refine ⟨trivial, fun h => by omega, fun h => by omega, fun _ => ⟨trivial, by omega, fun h => by omega⟩,
      fun h => by omega, fun h => by omega⟩
  · simp only [if_neg h0]
    by_cases h1 : (S.read hw.fd event S.sizeof_event w.kernel).1.res
        = ((S.sizeof_event : Nat) : Int)
    · have hd : ¬ (decide ((S.read hw.fd event S.sizeof_event w.kernel).1.res
          ≠ ((S.sizeof_event : Nat) : Int)) = true) := by simp [h1]
      simp only [if_neg hd]
      exact ⟨trivial, fun _ => trivial, fun _ h => absurd h1 h, fun h => absurd h h0,
        fun _ => h1, fun _ => trivial⟩
    · have hd : decide ((S.read hw.fd event S.sizeof_event w.kernel).1.res
          ≠ ((S.sizeof_event : Nat) : Int)) = true := by simp [h1]
      simp only [if_pos hd]
      exact ⟨trivial, fun h => absurd h h1, fun _ _ => trivial, fun h => absurd h h0,
        fun h => absurd h hE, fun h => absurd h h1⟩

/-! ## Blocking mode and asynchronous notification -/

/-- C7. For every card index in `[0, SND_MAX_CARDS)`: let `fd` be the descriptor that
`snd_open_device` returned, at the first attempt or, when that failed, at the single
retry after `snd_card_load`, and let `k` be the state of the outside machine after that
attempt.  When the version query on `fd` succeeds and reports a version whose major
component differs from that of `SNDRV_CTL_VERSION_MAX` (2.0.4), `snd_ctl_hw_open`
returns `-SND_ERROR_INCOMPATIBLE_VERSION` with `*handle` null; the calls it made are the
open attempts, the version query on `fd` and exactly one `close`, of `fd`, which is the
last thing done to the outside machine; there is no allocation: no backend state, no
handle. -/
theorem open_incompatible_major (S : Sys σ) (name : String) (card mode : Int) (w : World σ)
    (fd : Int) (k : σ)
    (hcard : 0 ≤ card ∧ card < SND_MAX_CARDS)
    (hopen :
      (0 ≤ (S.open_device (SNDRV_FILE_CONTROL card) (open_fmode mode) w.kernel).1.val ∧
        fd = (S.open_device (SNDRV_FILE_CONTROL card) (open_fmode mode) w.kernel).1.val ∧
        k = (S.open_device (SNDRV_FILE_CONTROL card) (open_fmode mode) w.kernel).2) ∨
      ((S.open_device (SNDRV_FILE_CONTROL card) (open_fmode mode) w.kernel).1.val < 0 ∧
        0 ≤ (S.open_device (SNDRV_FILE_CONTROL card) (open_fmode mode)
          (S.card_load card
            (S.open_device (SNDRV_FILE_CONTROL card) (open_fmode mode) w.kernel).2)).1.val ∧
        fd = (S.open_device (SNDRV_FILE_CONTROL card) (open_fmode mode)
          (S.card_load card
            (S.open_device (SNDRV_FILE_CONTROL card) (open_fmode mode) w.kernel).2)).1.val ∧
        k = (S.open_device (SNDRV_FILE_CONTROL card) (open_fmode mode)
          (S.card_load card
            (S.open_device (SNDRV_FILE_CONTROL card) (open_fmode mode) w.kernel).2)).2))
    (hq : 0 ≤ (S.ioctl fd Request.PVERSION Kind.int S.uninit_int k).1.val)
    (hmajor : SNDRV_PROTOCOL_MAJOR (S.ioctl fd Request.PVERSION Kind.int S.uninit_int k).1.out
      ≠ SNDRV_PROTOCOL_MAJOR SNDRV_CTL_VERSION_MAX) :
    (snd_ctl_hw_open S name card mode w).1 = (-SND_ERROR_INCOMPATIBLE_VERSION, none) ∧
    (snd_ctl_hw_open S name card mode w).2.trace =
      w.trace ++
        (if (S.open_device (SNDRV_FILE_CONTROL card) (open_fmode mode) w.kernel).1.val < 0 then
          [Event.open_device (SNDRV_FILE_CONTROL card) (open_fmode mode), Event.card_load card,
            Event.open_device (SNDRV_FILE_CONTROL card) (open_fmode mode)]
        else [Event.open_device (SNDRV_FILE_CONTROL card) (open_fmode mode)]) ++
        [Event.ioctl fd Request.PVERSION Kind.int S.uninit_int, Event.close fd] ∧
    (snd_ctl_hw_open S name card mode w).2.kernel =
      (S.close fd (S.ioctl fd Request.PVERSION Kind.int S.uninit_int k).2).2 := by
  have hsan : CHECK_SANITY (decide (card < 0) || decide (card ≥ SND_MAX_CARDS)) = false := by
    simp only [CHECK_SANITY, Bool.or_eq_false_iff, decide_eq_false_iff_not]
    omega
  have hinc : SNDRV_PROTOCOL_INCOMPATIBLE
      (S.ioctl fd Request.PVERSION Kind.int S.uninit_int k).1.out SNDRV_CTL_VERSION_MAX = true := by
    simp [SNDRV_PROTOCOL_INCOMPATIBLE, hmajor]
  rcases hopen with ⟨h1, hfd, hk⟩ | ⟨h1, h2, hfd, hk⟩
  · have hfd0 : 0 ≤ fd := hfd ▸ h1
    simp only [snd_ctl_hw_open, hsan, open_device_retry, sys_open_device, sys_card_load, ← hfd, ← hk,
      sys_ioctl, sys_close, if_neg (not_lt.mpr hfd0), if_neg (not_lt.mpr hq), hinc,
      if_neg (not_lt.mpr h1)]
    simp
  · have hfd0 : 0 ≤ fd := hfd ▸ h2
    simp only [snd_ctl_hw_open, hsan, open_device_retry, sys_open_device, sys_card_load, ← hfd, ← hk,
      sys_ioctl, sys_close, if_neg (not_lt.mpr hfd0), if_neg (not_lt.mpr hq), hinc, if_pos h1]
    simp

/-- Opening card 0 on a device that reports version 1.0.0. -/
theorem open_incompatible_major_witness :
    (snd_ctl_hw_open (standin_ver 65536) "hw" 0 0 ⟨fun _ => none, []⟩).1 =
      (-SND_ERROR_INCOMPATIBLE_VERSION, none) :=
  (open_incompatible_major (standin_ver 65536) "hw" 0 0 ⟨fun _ => none, []⟩ 3 (fun _ => none)
    (by decide) (Or.inl ⟨by decide, rfl, rfl⟩) (by decide) (by decide)).1

/-- A version that is an `int` and compatible with `SNDRV_CTL_VERSION_MAX` has major
component 2, so it is unchanged by the conversion to `unsigned int`. -/
theorem compatible_version_unsigned (ver : Int)
    (hint : -2 ^ 31 ≤ ver ∧ ver < 2 ^ 31)
    (hcompat : SNDRV_PROTOCOL_INCOMPATIBLE ver SNDRV_CTL_VERSION_MAX = false) :
    (((ver % 2 ^ 32).toNat : Nat) : Int) = ver := by
  simp only [SNDRV_PROTOCOL_INCOMPATIBLE, Bool.or_eq_false_iff, decide_eq_false_iff_not,
    not_not, SNDRV_PROTOCOL_MAJOR] at hcompat
  have hmax : ((SNDRV_CTL_VERSION_MAX : Nat) : Int) = 131076 := by decide
  rw [hmax] at hcompat
  have h2 : ver / 2 ^ 16 % 2 ^ 16 = 2 := by rw [hcompat.1]; decide
  have h0 : 0 ≤ ver := by omega
  omega

/-- C8. For every card index in `[0, SND_MAX_CARDS)`: let `fd` be the descriptor that
`snd_open_device` returned, at the first attempt or, when that failed, at the single
retry after `snd_card_load`.  When the version query on `fd` succeeds and reports a
compatible version `v.out` (an `int`), and the allocation of the backend state and the
creation of the handle succeed, `snd_ctl_hw_open` returns 0 having made the open
attempts, the query, the allocation and the handle creation and no other call, and
yields a handle polling `fd` whose backend state stores the reported version as
protocol, the requested index as card and `fd` as descriptor; and every operation of
the dispatch table other than `close`, called with any arguments in any world, hands
that backend state back as it received it. -/
theorem open_stores_version (S : Sys σ) (name : String) (card mode : Int) (w : World σ)
    (fd : Int) (k : σ) (v : Reply Int) (k2 k3 : σ) (c : Reply snd_ctl_t) (k4 : σ)
    (hcard : 0 ≤ card ∧ card < SND_MAX_CARDS)
    (hopen :
      (0 ≤ (S.open_device (SNDRV_FILE_CONTROL card) (open_fmode mode) w.kernel).1.val ∧
        fd = (S.open_device (SNDRV_FILE_CONTROL card) (open_fmode mode) w.kernel).1.val ∧
        k = (S.open_device (SNDRV_FILE_CONTROL card) (open_fmode mode) w.kernel).2) ∨
      ((S.open_device (SNDRV_FILE_CONTROL card) (open_fmode mode) w.kernel).1.val < 0 ∧
        0 ≤ (S.open_device (SNDRV_FILE_CONTROL card) (open_fmode mode)
          (S.card_load card
            (S.open_device (SNDRV_FILE_CONTROL card) (open_fmode mode) w.kernel).2)).1.val ∧
        fd = (S.open_device (SNDRV_FILE_CONTROL card) (open_fmode mode)
          (S.card_load card
            (S.open_device (SNDRV_FILE_CONTROL card) (open_fmode mode) w.kernel).2)).1.val ∧
        k = (S.open_device (SNDRV_FILE_CONTROL card) (open_fmode mode)
          (S.card_load card
            (S.open_device (SNDRV_FILE_CONTROL card) (open_fmode mode) w.kernel).2)).2))
    (hver : S.ioctl fd Request.PVERSION Kind.int S.uninit_int k = (v, k2))
    (hq : 0 ≤ v.val)
    (hint : -2 ^ 31 ≤ v.out ∧ v.out < 2 ^ 31)
    (hcompat : SNDRV_PROTOCOL_INCOMPATIBLE v.out SNDRV_CTL_VERSION_MAX = false)
    (hcalloc : S.calloc 1 sizeof_snd_ctl_hw_t k2 = (true, k3))
    (hnew : S.ctl_new name mode k3 = (c, k4))
    (hc : 0 ≤ c.val) :
    (snd_ctl_hw_open S name card mode w).1.1 = 0 ∧
    (snd_ctl_hw_open S name card mode w).2.kernel = k4 ∧
    (snd_ctl_hw_open S name card mode w).2.trace =
      w.trace ++
        (if (S.open_device (SNDRV_FILE_CONTROL card) (open_fmode mode) w.kernel).1.val < 0 then
          [Event.open_device (SNDRV_FILE_CONTROL card) (open_fmode mode), Event.card_load card,
            Event.open_device (SNDRV_FILE_CONTROL card) (open_fmode mode)]
        else [Event.open_device (SNDRV_FILE_CONTROL card) (open_fmode mode)]) ++
        [Event.ioctl fd Request.PVERSION Kind.int S.uninit_int,
          Event.calloc 1 sizeof_snd_ctl_hw_t, Event.ctl_new name mode] ∧
    ∃ (ctl : snd_ctl_t) (hw : snd_ctl_hw_t),
      (snd_ctl_hw_open S name card mode w).1.2 = some ctl ∧
      ctl.private_data = some hw ∧ ctl.poll_fd = fd ∧
      (hw.protocol : Int) = v.out ∧ hw.card = card ∧ hw.fd = fd ∧
      ∀ (τ : Type) (S' : Sys τ) (call : Call) (w' : World τ), call ≠ Call.close →
        (snd_ctl_hw_ops S' hw call w').1.2 = some hw := by
  have hsan : CHECK_SANITY (decide (card < 0) || decide (card ≥ SND_MAX_CARDS)) = false := by
    simp only [CHECK_SANITY, Bool.or_eq_false_iff, decide_eq_false_iff_not]
    omega
  have hproto := compatible_version_unsigned v.out hint hcompat
  have hplain : ∀ (τ : Type) (S' : Sys τ) (hw : snd_ctl_hw_t) (request : Request) (kd : Kind)
      (arg : kd.T) (w' : World τ), (ioctl_or_errno S' hw request kd arg w').2.1 = hw := by
    intro τ S' hw request kd arg w'
    simp only [ioctl_or_errno]
    split_ifs <;> rfl
  have hframe : ∀ (τ : Type) (S' : Sys τ) (hw : snd_ctl_hw_t) (call : Call) (w' : World τ),
      call ≠ Call.close → (snd_ctl_hw_ops S' hw call w').1.2 = some hw := by
    intro τ S' hw call w' hcl
    cases call with
    | close => exact absurd rfl hcl
    | nonblock n =>
      simp only [snd_ctl_hw_ops, snd_ctl_hw_nonblock]
      split_ifs <;> rfl
    | async sig pid =>
      simp only [snd_ctl_hw_ops, snd_ctl_hw_async]
      split_ifs <;> rfl
    | element_add info =>
      simp only [snd_ctl_hw_ops, snd_ctl_hw_elem_add]
      split_ifs <;> rfl
    | element_replace info =>
      simp only [snd_ctl_hw_ops, snd_ctl_hw_elem_replace]
      split_ifs <;> rfl
    | element_tlv op_flag numid tlv tlv_size =>
      simp only [snd_ctl_hw_ops, snd_ctl_hw_elem_tlv]
      by_cases hp : hw.protocol < SNDRV_PROTOCOL_VERSION 2 0 4
      · rw [if_pos hp]
      · rw [if_neg hp]
        cases tlv_inum op_flag with
        | none => rfl
        | some inum =>
          simp only [sys_malloc]
          cases (S'.malloc (sizeof_snd_ctl_tlv + tlv_size) w'.kernel).1 with
          | none => rfl
          | some blk =>
            simp only
            split_ifs <;> rfl
    | pcm_info info =>
      simp only [snd_ctl_hw_ops, snd_ctl_hw_pcm_info]
      split_ifs <;> rfl
    | read event =>
      simp only [snd_ctl_hw_ops, snd_ctl_hw_read]
      split_ifs <;> rfl
    | subscribe_events x => exact congrArg some (hplain τ S' hw _ _ _ w')
    | card_info x => exact congrArg some (hplain τ S' hw _ _ _ w')
    | element_list x => exact congrArg some (hplain τ S' hw _ _ _ w')
    | element_info x => exact congrArg some (hplain τ S' hw _ _ _ w')
    | element_remove x => exact congrArg some (hplain τ S' hw _ _ _ w')
    | element_read x => exact congrArg some (hplain τ S' hw _ _ _ w')
    | element_write x => exact congrArg some (hplain τ S' hw _ _ _ w')
    | element_lock x => exact congrArg some (hplain τ S' hw _ _ _ w')
    | element_unlock x => exact congrArg some (hplain τ S' hw _ _ _ w')
    | hwdep_next_device x => exact congrArg some (hplain τ S' hw _ _ _ w')
    | hwdep_info x => exact congrArg some (hplain τ S' hw _ _ _ w')
    | pcm_next_device x => exact congrArg some (hplain τ S' hw _ _ _ w')
    | pcm_prefer_subdevice x => exact congrArg some (hplain τ S' hw _ _ _ w')
    | rawmidi_next_device x => exact congrArg some (hplain τ S' hw _ _ _ w')
    | rawmidi_info x => exact congrArg some (hplain τ S' hw _ _ _ w')
    | rawmidi_prefer_subdevice x => exact congrArg some (hplain τ S' hw _ _ _ w')
    | set_power_state x => exact congrArg some (hplain τ S' hw _ _ _ w')
    | get_power_state x => exact congrArg some (hplain τ S' hw _ _ _ w')
  rcases hopen with ⟨h1, hfd, hk⟩ | ⟨h1, h2, hfd, hk⟩
  · have hfd0 : 0 ≤ fd := hfd ▸ h1
    simp only [snd_ctl_hw_open, hsan, open_device_retry, sys_open_device, sys_card_load, ← hfd, ← hk,
      sys_ioctl, sys_calloc, sys_ctl_new, hver, hcalloc, hnew, if_neg (not_lt.mpr hfd0),
      if_neg (not_lt.mpr hq), if_neg (not_lt.mpr hc), hcompat, if_neg (not_lt.mpr h1)]
    refine ⟨by simp, by simp, by simp, _, _, by simp; rfl, rfl, rfl, hproto, rfl, rfl,
      fun τ S' call w' hcl => hframe τ S' _ call w' hcl⟩
  · have hfd0 : 0 ≤ fd := hfd ▸ h2
    simp only [snd_ctl_hw_open, hsan, open_device_retry, sys_open_device, sys_card_load, ← hfd, ← hk,
      sys_ioctl, sys_calloc, sys_ctl_new, hver, hcalloc, hnew, if_neg (not_lt.mpr hfd0),
      if_neg (not_lt.mpr hq), if_neg (not_lt.mpr hc), hcompat, if_pos h1]
    refine ⟨by simp, by simp, by simp, _, _, by simp; rfl, rfl, rfl, hproto, rfl, rfl,
      fun τ S' call w' hcl => hframe τ S' _ call w' hcl⟩

/-- Opening card 0 on a device that reports version 2.0.4. -/
theorem open_stores_version_witness :
    (snd_ctl_hw_open (standin_ver 131076) "hw" 0 0 ⟨fun _ => none, []⟩).1.1 = 0 :=
  (open_stores_version (standin_ver 131076) "hw" 0 0 ⟨fun _ => none, []⟩ 3 (fun _ => none)
    _ _ _ _ _ (by decide) (Or.inl ⟨by decide, rfl, rfl⟩) rfl (by decide) (by decide) (by decide)
    rfl rfl (by decide)).1

end ControlHw
